import Mathlib

/-!
Verification of the llmRouter.js dispatch-and-adapters module.

The source is a thin unification layer over three provider HTTP APIs:
`callLLM` dispatches on a provider tag to `callOpenAI`, `callGemini` or
`callOpenRouter`; each adapter builds a provider-native request body,
issues one HTTP POST (modelled here by an explicit network oracle
`net : HttpRequest → HttpResponse`), and extracts a result from the
response body.  JavaScript values appearing in the response bodies are
modelled by an inductive `Json` type; the JavaScript distinction between
`null` and `undefined` is kept by working with `Option Json`
(`none` = `undefined`, `some Json.null` = `null`).  Numbers are modelled
as integers (no claim depends on fractional numeric payloads).
-/

namespace LLMRouter

/-- JSON values (JavaScript numbers restricted to integers for this model). -/
inductive Json where
  | null : Json
  | bool : Bool → Json
  | num : Int → Json
  | str : String → Json
  | arr : List Json → Json
  | obj : List (String × Json) → Json
deriving Repr

/-- One chat message, `{ role, content }` from the `LLMParams` typedef. -/
structure Message where
  role : String
  content : String
deriving Repr, DecidableEq, Inhabited

/-- The `LLMParams` parameter object of `callLLM`.  `provider` is a plain
string because the source switches on it and has a default branch;
`tools` and `response_format` are provider-specific descriptors read by
the OpenAI/OpenRouter adapters. -/
structure LLMParams where
  provider : String
  modelName : String
  apiKey : String
  messages : List Message
  temperature : Option Int := none
  user : Option String := none
  tools : Option Json := none
  response_format : Option Json := none
deriving Repr

/-! ### Base64 (Node `Buffer.from(s).toString("base64")`) -/

/-- The base64 alphabet in index order. -/
def b64Alphabet : List Char :=
  [ 'A','B','C','D','E','F','G','H','I','J','K','L','M','N','O','P',
    'Q','R','S','T','U','V','W','X','Y','Z','a','b','c','d','e','f',
    'g','h','i','j','k','l','m','n','o','p','q','r','s','t','u','v',
    'w','x','y','z','0','1','2','3','4','5','6','7','8','9','+','/' ]

/-- Character for a 6-bit group. -/
def b64Char (n : Nat) : Char := b64Alphabet.getD n '?'

/-- Index of a base64 character, `none` for characters outside the alphabet. -/
def b64Index (c : Char) : Option Nat := b64Alphabet.indexOf? c

/-- Base64 encoding of a byte sequence, with `=` padding, as produced by
`Buffer.toString("base64")`. -/
def b64EncodeBytes : List Nat → List Char
  | [] => []
  | [a] => [b64Char (a / 4), b64Char (a % 4 * 16), '=', '=']
  | [a, b] => [b64Char (a / 4), b64Char (a % 4 * 16 + b / 16), b64Char (b % 16 * 4), '=']
  | a :: b :: c :: rest =>
      b64Char (a / 4) :: b64Char (a % 4 * 16 + b / 16) ::
      b64Char (b % 16 * 4 + c / 64) :: b64Char (c % 64) :: b64EncodeBytes rest

/-- Base64 decoding (a compliant consumer): four characters at a time,
honouring `=` padding; fails on characters outside the alphabet or on
lengths that are not a multiple of four. -/
def b64Decode : List Char → Option (List Nat)
  | [] => some []
  | w :: x :: y :: z :: rest =>
      match b64Index w, b64Index x with
      | some a, some b =>
        if y = '=' then
          if z = '=' ∧ rest = [] then some [a * 4 + b / 16] else none
        else
          match b64Index y with
          | some c =>
            if z = '=' then
              if rest = [] then some [a * 4 + b / 16, b % 16 * 16 + c / 4] else none
            else
              match b64Index z with
              | some d =>
                (b64Decode rest).map
                  (fun t => (a * 4 + b / 16) :: (b % 16 * 16 + c / 4) :: (c % 4 * 64 + d) :: t)
              | none => none
          | none => none
      | _, _ => none
  | _ => none

/-! ### UTF-8 (Node `Buffer.from(s)` encodes the string as UTF-8 bytes) -/

/-- UTF-8 encoding of one Unicode code point. -/
def utf8EncodeCodepoint (n : Nat) : List Nat :=
  if n < 0x80 then [n]
  else if n < 0x800 then [0xC0 + n / 64, 0x80 + n % 64]
  else if n < 0x10000 then [0xE0 + n / 4096, 0x80 + n / 64 % 64, 0x80 + n % 64]
  else [0xF0 + n / 262144, 0x80 + n / 4096 % 64, 0x80 + n / 64 % 64, 0x80 + n % 64]

/-- The UTF-8 bytes of a string (`Buffer.from(s)` in the source). -/
def strBytes (s : String) : List Nat := s.data.flatMap (fun c => utf8EncodeCodepoint c.toNat)

/-! UTF-8 decoding of a byte sequence back to code points (a compliant,
lenient consumer); fails on malformed sequences.  Split into one function
per UTF-8 sequence length. -/
mutual

/-- UTF-8 decoding entry point: dispatch on the leading byte. -/
def utf8DecodeBytes : List Nat → Option (List Nat)
  | [] => some []
  | b :: rest =>
    if b < 0x80 then (utf8DecodeBytes rest).map (fun t => b :: t)
    else if b < 0xE0 then utf8DecodeTwo b rest
    else if b < 0xF0 then utf8DecodeThree b rest
    else utf8DecodeFour b rest
termination_by l => l.length

/-- Decode the continuation byte of a two-byte sequence. -/
def utf8DecodeTwo (b : Nat) : List Nat → Option (List Nat)
  | b1 :: rest =>
    if 0xC0 ≤ b ∧ 0x80 ≤ b1 ∧ b1 < 0xC0 then
      (utf8DecodeBytes rest).map (fun t => ((b - 0xC0) * 64 + (b1 - 0x80)) :: t)
    else none
  | [] => none
termination_by l => l.length

/-- Decode the continuation bytes of a three-byte sequence. -/
def utf8DecodeThree (b : Nat) : List Nat → Option (List Nat)
  | b1 :: b2 :: rest =>
    if (0x80 ≤ b1 ∧ b1 < 0xC0) ∧ (0x80 ≤ b2 ∧ b2 < 0xC0) then
      (utf8DecodeBytes rest).map
        (fun t => ((b - 0xE0) * 4096 + (b1 - 0x80) * 64 + (b2 - 0x80)) :: t)
    else none
  | _ => none
termination_by l => l.length

/-- Decode the continuation bytes of a four-byte sequence. -/
def utf8DecodeFour (b : Nat) : List Nat → Option (List Nat)
  | b1 :: b2 :: b3 :: rest =>
    if b < 0xF8 ∧ (0x80 ≤ b1 ∧ b1 < 0xC0) ∧ (0x80 ≤ b2 ∧ b2 < 0xC0) ∧
        (0x80 ≤ b3 ∧ b3 < 0xC0) then
      (utf8DecodeBytes rest).map
        (fun t =>
          ((b - 0xF0) * 262144 + (b1 - 0x80) * 4096 + (b2 - 0x80) * 64 + (b3 - 0x80)) :: t)
    else none
  | _ => none
termination_by l => l.length

end

/-- `Buffer.from(s).toString("base64")` from the source, as a string. -/
def b64EncodeString (s : String) : String := String.mk (b64EncodeBytes (strBytes s))

/-! ### HTTP model

The transport (`fetch`) is abstracted as an oracle `net : HttpRequest →
HttpResponse`; each call function returns the list of requests it issued
together with its result, so "no network call" is the empty list. -/

/-- An outbound HTTP request as assembled by an adapter. -/
structure HttpRequest where
  url : String
  method : String
  headers : List (String × String)
  body : Json
deriving Repr

/-- An HTTP response as seen by an adapter; `body` is the already-parsed
JSON body (`response.json()`). -/
structure HttpResponse where
  status : Nat
  statusText : String
  body : Json
deriving Repr

/-- `response.ok` of `fetch`: status in the range 200–299. -/
def respOk (r : HttpResponse) : Bool := 200 ≤ r.status && r.status < 300

/-- Errors surfacing from a call: the dispatcher's unsupported-provider
throw, an adapter's API-error throw, or a JavaScript runtime error
(property access on `undefined`/`null`, or a `JSON.parse` failure). -/
inductive LLMError where
  | unsupportedProvider : String → LLMError
  | apiError : String → LLMError
  | runtimeError : LLMError
deriving Repr, DecidableEq

/-! ### JavaScript member-access semantics

`Option Json` models a JavaScript value that may be `undefined` (`none`).
Property access on `undefined` or `null` throws; a missing object key or
an out-of-range array index yields `undefined`. -/

/-- `v.k` — JavaScript property access. -/
def jsGet (v : Option Json) (k : String) : Except LLMError (Option Json) :=
  match v with
  | none => .error .runtimeError
  | some Json.null => .error .runtimeError
  | some (Json.obj fields) => .ok ((fields.find? (fun f => f.1 = k)).map Prod.snd)
  | some _ => .ok none

/-- `v[i]` — JavaScript index access. -/
def jsIndex (v : Option Json) (i : Nat) : Except LLMError (Option Json) :=
  match v with
  | none => .error .runtimeError
  | some Json.null => .error .runtimeError
  | some (Json.arr xs) => .ok xs[i]?
  | some _ => .ok none

/-! ### JSON.parse

A recursive-descent parser for the JSON text occurring in tool-call
argument strings.  Numbers are restricted to (optionally signed) integer
literals, matching the model's integer-valued `Json.num`. -/

/-- Whitespace skipping. -/
def skipWs (cs : List Char) : List Char :=
  cs.dropWhile (fun c => c = ' ' ∨ c = '\n' ∨ c = '\t' ∨ c = '\r')

/-- Parse the remainder of a JSON string literal (after the opening
quote), handling the standard escapes; `\u` escapes are not supported. -/
def parseStringRest : List Char → Option (String × List Char)
  | [] => none
  | '"' :: rest => some ("", rest)
  | '\\' :: e :: rest =>
      (match e with
       | '"' => some '"' | '\\' => some '\\' | '/' => some '/'
       | 'n' => some '\n' | 't' => some '\t' | 'r' => some '\r'
       | _ => none).bind fun c =>
        (parseStringRest rest).map fun (p : String × List Char) =>
          (String.mk (c :: p.1.data), p.2)
  | c :: rest =>
      if c = '"' ∨ c = '\\' then none
      else
        (parseStringRest rest).map fun (p : String × List Char) =>
          (String.mk (c :: p.1.data), p.2)

/-- Accumulate a run of decimal digits into a natural number. -/
def parseDigitsAux (acc : Nat) : List Char → Nat × List Char
  | c :: rest =>
      if c.isDigit then parseDigitsAux (acc * 10 + (c.toNat - 48)) rest
      else (acc, c :: rest)
  | [] => (acc, [])

/-- Parse an (optionally signed) integer literal. -/
def parseNumber : List Char → Option (Json × List Char)
  | '-' :: c :: rest =>
      if c.isDigit then
        let (n, cs) := parseDigitsAux (c.toNat - 48) rest
        some (Json.num (-(n : Int)), cs)
      else none
  | c :: rest =>
      if c.isDigit then
        let (n, cs) := parseDigitsAux (c.toNat - 48) rest
        some (Json.num (n : Int), cs)
      else none
  | [] => none

mutual

/-- Parse one JSON value; the fuel bounds recursion depth. -/
def parseVal : Nat → List Char → Option (Json × List Char)
  | 0, _ => none
  | fuel + 1, cs =>
    match skipWs cs with
    | 'n' :: 'u' :: 'l' :: 'l' :: rest => some (Json.null, rest)
    | 't' :: 'r' :: 'u' :: 'e' :: rest => some (Json.bool true, rest)
    | 'f' :: 'a' :: 'l' :: 's' :: 'e' :: rest => some (Json.bool false, rest)
    | '"' :: rest => (parseStringRest rest).map fun (s, cs2) => (Json.str s, cs2)
    | '[' :: rest =>
        (match skipWs rest with
         | ']' :: rest2 => some (Json.arr [], rest2)
         | rest2 => (parseElems fuel rest2).map fun (xs, cs2) => (Json.arr xs, cs2))
    | '{' :: rest =>
        (match skipWs rest with
         | '}' :: rest2 => some (Json.obj [], rest2)
         | rest2 => (parseMembers fuel rest2).map fun (fs, cs2) => (Json.obj fs, cs2))
    | cs2 => parseNumber cs2

/-- Parse the elements of a non-empty array up to the closing bracket. -/
def parseElems : Nat → List Char → Option (List Json × List Char)
  | 0, _ => none
  | fuel + 1, cs =>
    (parseVal fuel cs).bind fun (v, cs2) =>
      match skipWs cs2 with
      | ',' :: cs3 => (parseElems fuel cs3).map fun (xs, cs4) => (v :: xs, cs4)
      | ']' :: cs3 => some ([v], cs3)
      | _ => none

/-- Parse the members of a non-empty object up to the closing brace. -/
def parseMembers : Nat → List Char → Option (List (String × Json) × List Char)
  | 0, _ => none
  | fuel + 1, cs =>
    match skipWs cs with
    | '"' :: rest =>
      (parseStringRest rest).bind fun (k, cs2) =>
        match skipWs cs2 with
        | ':' :: cs3 =>
          (parseVal fuel cs3).bind fun (v, cs4) =>
            match skipWs cs4 with
            | ',' :: cs5 => (parseMembers fuel cs5).map fun (fs, cs6) => ((k, v) :: fs, cs6)
            | '}' :: cs5 => some ([(k, v)], cs5)
            | _ => none
        | _ => none
    | _ => none

end

/-- `JSON.parse` on a string: the whole input must be consumed. -/
def jsonParse (s : String) : Option Json :=
  (parseVal (s.length + 1) s.data).bind fun (j, rest) =>
    if skipWs rest = [] then some j else none

/-! ### The three adapters and the dispatcher -/

/-- A message serialized into the request body. -/
def msgJson (m : Message) : Json :=
  Json.obj [("role", Json.str m.role), ("content", Json.str m.content)]

/-- `JSON.stringify` drops fields whose value is `undefined`: an optional
parameter contributes its key only when present. -/
def optField (k : String) : Option Json → List (String × Json)
  | none => []
  | some v => [(k, v)]

/-- The `postData` object of `callOpenAI` (source lines 45–52). -/
def openAIBody (p : LLMParams) : Json :=
  Json.obj
    ([("model", Json.str p.modelName),
      ("messages", Json.arr (p.messages.map msgJson))]
     ++ optField "tools" p.tools
     ++ optField "response_format" p.response_format
     ++ optField "temperature" (p.temperature.map Json.num)
     ++ [("user", Json.str (b64EncodeString (p.user.getD "")))])

/-- The request `callOpenAI` hands to `fetch` (source lines 37–57). -/
def openAIRequest (p : LLMParams) : HttpRequest :=
  { url := "https://api.openai.com/v1/chat/completions"
    method := "POST"
    headers := [("Content-Type", "application/json"), ("Authorization", p.apiKey)]
    body := openAIBody p }

/-- The result extraction of `callOpenAI` (source lines 67–74):
`content !== null` is the JavaScript strict test, so an `undefined`
content is returned as-is; when content is `null` the first tool call's
`function.arguments` is read unconditionally, parsed with `JSON.parse`,
and its `response` field returned; `arguments === null` returns `null`.
A non-string, non-null `arguments` (which `JSON.parse` would coerce) is
modelled as a runtime error. -/
def extractOpenAI (data : Json) : Except LLMError (Option Json) := do
  let choices ← jsGet (some data) "choices"
  let c0 ← jsIndex choices 0
  let msg ← jsGet c0 "message"
  let content ← jsGet msg "content"
  match content with
  | some Json.null =>
    let tcs ← jsGet msg "tool_calls"
    let tc0 ← jsIndex tcs 0
    let fn ← jsGet tc0 "function"
    let args ← jsGet fn "arguments"
    match args with
    | some Json.null => return (some Json.null)
    | some (Json.str s) =>
      match jsonParse s with
      | some j => jsGet (some j) "response"
      | none => .error .runtimeError
    | _ => .error .runtimeError
  | c => return c

/-- `callOpenAI` (source lines 36–75): build the request, issue it, throw
on a non-ok status, otherwise extract from the parsed body.  The first
component records the requests issued. -/
def callOpenAI (p : LLMParams) (net : HttpRequest → HttpResponse) :
    List HttpRequest × Except LLMError (Option Json) :=
  let req := openAIRequest p
  let resp := net req
  ([req],
    if respOk resp then extractOpenAI resp.body
    else .error (.apiError
      ("OpenAI API error: " ++ toString resp.status ++ " " ++ resp.statusText)))

/-- The flattened transcript of `callGemini` (source line 96):
one line per message, `[role] content`, joined by newlines. -/
def geminiFlattenText (msgs : List Message) : String :=
  String.intercalate "\n" (msgs.map fun m => "[" ++ m.role ++ "] " ++ m.content)

/-- The `postData` object of `callGemini` (source lines 91–101). -/
def geminiBody (p : LLMParams) : Json :=
  Json.obj
    [("contents", Json.arr
      [Json.obj
        [("parts", Json.arr
          [Json.obj [("text", Json.str (geminiFlattenText p.messages))]])]])]

/-- The request `callGemini` hands to `fetch` (source lines 84–109):
credential in the URL query string, no authorization header. -/
def geminiRequest (p : LLMParams) : HttpRequest :=
  { url := "https://generativelanguage.googleapis.com/v1beta/models/"
          ++ p.modelName ++ ":generateContent?key=" ++ p.apiKey
    method := "POST"
    headers := [("Content-Type", "application/json")]
    body := geminiBody p }

/-- The result extraction of `callGemini` (source line 118):
`data.candidates[0].content.parts[0].text`. -/
def extractGemini (data : Json) : Except LLMError (Option Json) := do
  let cands ← jsGet (some data) "candidates"
  let c0 ← jsIndex cands 0
  let content ← jsGet c0 "content"
  let parts ← jsGet content "parts"
  let p0 ← jsIndex parts 0
  jsGet p0 "text"

/-- `callGemini` (source lines 83–119). -/
def callGemini (p : LLMParams) (net : HttpRequest → HttpResponse) :
    List HttpRequest × Except LLMError (Option Json) :=
  let req := geminiRequest p
  let resp := net req
  ([req],
    if respOk resp then extractGemini resp.body
    else .error (.apiError
      ("Gemini API error: " ++ toString resp.status ++ " " ++ resp.statusText)))

/-- The `postData` object of `callOpenRouter` (source lines 136–143);
the source duplicates the OpenAI body construction verbatim. -/
def openRouterBody (p : LLMParams) : Json :=
  Json.obj
    ([("model", Json.str p.modelName),
      ("messages", Json.arr (p.messages.map msgJson))]
     ++ optField "tools" p.tools
     ++ optField "response_format" p.response_format
     ++ optField "temperature" (p.temperature.map Json.num)
     ++ [("user", Json.str (b64EncodeString (p.user.getD "")))])

/-- The request `callOpenRouter` hands to `fetch` (source lines 128–148):
bearer-scheme authorization header. -/
def openRouterRequest (p : LLMParams) : HttpRequest :=
  { url := "https://openrouter.ai/api/v1/chat/completions"
    method := "POST"
    headers := [("Content-Type", "application/json"),
                ("Authorization", "Bearer " ++ p.apiKey)]
    body := openRouterBody p }

/-- The result extraction of `callOpenRouter` (source line 157):
`data.choices[0].message.content`. -/
def extractOpenRouter (data : Json) : Except LLMError (Option Json) := do
  let choices ← jsGet (some data) "choices"
  let c0 ← jsIndex choices 0
  let msg ← jsGet c0 "message"
  jsGet msg "content"

/-- `callOpenRouter` (source lines 127–158). -/
def callOpenRouter (p : LLMParams) (net : HttpRequest → HttpResponse) :
    List HttpRequest × Except LLMError (Option Json) :=
  let req := openRouterRequest p
  let resp := net req
  ([req],
    if respOk resp then extractOpenRouter resp.body
    else .error (.apiError
      ("OpenRouter API error: " ++ toString resp.status ++ " " ++ resp.statusText)))

/-- `callLLM` (source lines 17–28): switch on the provider tag (a
sequence of equality tests); the default branch throws without touching
the network. -/
def callLLM (p : LLMParams) (net : HttpRequest → HttpResponse) :
    List HttpRequest × Except LLMError (Option Json) :=
  if p.provider = "openai" then callOpenAI p net
  else if p.provider = "gemini" then callGemini p net
  else if p.provider = "openrouter" then callOpenRouter p net
  else ([], .error (.unsupportedProvider ("Unsupported provider: " ++ p.provider)))

/-! ### Concrete fixtures for witnesses -/

/-- The single-message transcript used in the spec's examples. -/
def exMessages : List Message := [⟨"user", "What is the capital of France?"⟩]

/-- A concrete parameter object with a given provider tag. -/
def exParams (tag : String) : LLMParams :=
  { provider := tag, modelName := "gpt-4o", apiKey := "sk-test", messages := exMessages }

/-- A variant A success body whose first choice carries content "Paris". -/
def exBodyParis : Json :=
  Json.obj [("choices", Json.arr
    [Json.obj [("message", Json.obj
      [("role", Json.str "assistant"), ("content", Json.str "Paris")])]])]

/-- A variant A success body with null content and one tool call whose
argument string is the JSON text of an object with a `response` field. -/
def exBodyTool : Json :=
  Json.obj [("choices", Json.arr
    [Json.obj [("message", Json.obj
      [("content", Json.null),
       ("tool_calls", Json.arr
         [Json.obj [("function", Json.obj
           [("arguments", Json.str "\x7b\"response\": true\x7d")])]])])]])]

/-- A variant A success body with null content and no `tool_calls` key. -/
def exBodyNoTools : Json :=
  Json.obj [("choices", Json.arr
    [Json.obj [("message", Json.obj [("content", Json.null)])]])]

/-- A network oracle answering 200 OK with a fixed body. -/
def exNetOk (body : Json) : HttpRequest → HttpResponse :=
  fun _ => { status := 200, statusText := "OK", body := body }

/-- A network oracle answering 401 Unauthorized. -/
def exNet401 : HttpRequest → HttpResponse :=
  fun _ => { status := 401, statusText := "Unauthorized", body := Json.null }

/-! ### Helper lemmas: base64 -/

theorem b64Index_b64Char : ∀ n : Nat, n < 64 → b64Index (b64Char n) = some n := by
  decide

theorem b64Char_ne_pad : ∀ n : Nat, n < 64 → b64Char n ≠ '=' := by
  decide

theorem b64Decode_encode :
    ∀ bs : List Nat, (∀ b ∈ bs, b < 256) → b64Decode (b64EncodeBytes bs) = some bs
  | [] => fun _ => rfl
  | [a] => fun h => by
      have ha : a < 256 := h a (by simp)
      simp only [b64EncodeBytes, b64Decode]
      rw [b64Index_b64Char _ (by omega), b64Index_b64Char _ (by omega)]
      simp
      omega
  | [a, b] => fun h => by
      have ha : a < 256 := h a (by simp)
      have hb : b < 256 := h b (by simp)
      simp only [b64EncodeBytes, b64Decode]
      rw [b64Index_b64Char _ (by omega), b64Index_b64Char _ (by omega),
        b64Index_b64Char _ (by omega)]
      have hy := b64Char_ne_pad (b % 16 * 4) (by omega)
      simp [hy]
      omega
  | a :: b :: c :: rest => fun h => by
      have ha : a < 256 := h a (by simp)
      have hb : b < 256 := h b (by simp)
      have hc : c < 256 := h c (by simp)
      have ih := b64Decode_encode rest (fun x hx => h x (by simp [hx]))
      simp only [b64EncodeBytes, b64Decode]
      rw [b64Index_b64Char _ (by omega), b64Index_b64Char _ (by omega),
        b64Index_b64Char _ (by omega), b64Index_b64Char _ (by omega)]
      have hy := b64Char_ne_pad (b % 16 * 4 + c / 64) (by omega)
      have hz := b64Char_ne_pad (c % 64) (by omega)
      simp [hy, hz, ih]
      omega

/-! ### Helper lemmas: UTF-8 -/

theorem utf8Decode_encode :
    ∀ cps : List Nat, (∀ n ∈ cps, n < 1114112) →
      utf8DecodeBytes (cps.flatMap utf8EncodeCodepoint) = some cps
  | [] => fun _ => by simp [utf8DecodeBytes]
  | n :: rest => fun h => by
      have hn : n < 1114112 := h n (by simp)
      have ih := utf8Decode_encode rest (fun x hx => h x (by simp [hx]))
      simp only [List.flatMap_cons]
      by_cases h1 : n < 0x80
      · have henc : utf8EncodeCodepoint n = [n] := by
          rw [utf8EncodeCodepoint, if_pos h1]
        rw [henc, List.singleton_append, utf8DecodeBytes, if_pos h1, ih]
        rfl
      · by_cases h2 : n < 0x800
        · have henc : utf8EncodeCodepoint n = [0xC0 + n / 64, 0x80 + n % 64] := by
            rw [utf8EncodeCodepoint, if_neg h1, if_pos h2]
          have c1 : ¬ (0xC0 + n / 64 < 0x80) := by omega
          have c2 : 0xC0 + n / 64 < 0xE0 := by omega
          have c3 : 0xC0 ≤ 0xC0 + n / 64 ∧ 0x80 ≤ 0x80 + n % 64 ∧ 0x80 + n % 64 < 0xC0 := by
            omega
          rw [henc, List.cons_append, List.singleton_append, utf8DecodeBytes,
            if_neg c1, if_pos c2, utf8DecodeTwo, if_pos c3, ih]
          simp
          omega
        · by_cases h3 : n < 0x10000
          · have henc : utf8EncodeCodepoint n =
                [0xE0 + n / 4096, 0x80 + n / 64 % 64, 0x80 + n % 64] := by
              rw [utf8EncodeCodepoint, if_neg h1, if_neg h2, if_pos h3]
            have c1 : ¬ (0xE0 + n / 4096 < 0x80) := by omega
            have c2 : ¬ (0xE0 + n / 4096 < 0xE0) := by omega
            have c3 : 0xE0 + n / 4096 < 0xF0 := by omega
            have c4 : (0x80 ≤ 0x80 + n / 64 % 64 ∧ 0x80 + n / 64 % 64 < 0xC0) ∧
                0x80 ≤ 0x80 + n % 64 ∧ 0x80 + n % 64 < 0xC0 := by omega
            rw [henc, List.cons_append, List.cons_append, List.singleton_append,
              utf8DecodeBytes, if_neg c1, if_neg c2, if_pos c3, utf8DecodeThree,
              if_pos c4, ih]
            simp
            omega
          · have henc : utf8EncodeCodepoint n =
                [0xF0 + n / 262144, 0x80 + n / 4096 % 64, 0x80 + n / 64 % 64,
                 0x80 + n % 64] := by
              rw [utf8EncodeCodepoint, if_neg h1, if_neg h2, if_neg h3]
            have c1 : ¬ (0xF0 + n / 262144 < 0x80) := by omega
            have c2 : ¬ (0xF0 + n / 262144 < 0xE0) := by omega
            have c3 : ¬ (0xF0 + n / 262144 < 0xF0) := by omega
            have c4 : 0xF0 + n / 262144 < 0xF8 ∧
                (0x80 ≤ 0x80 + n / 4096 % 64 ∧ 0x80 + n / 4096 % 64 < 0xC0) ∧
                (0x80 ≤ 0x80 + n / 64 % 64 ∧ 0x80 + n / 64 % 64 < 0xC0) ∧
                0x80 ≤ 0x80 + n % 64 ∧ 0x80 + n % 64 < 0xC0 := by omega
            rw [henc, List.cons_append, List.cons_append, List.cons_append,
              List.singleton_append, utf8DecodeBytes, if_neg c1, if_neg c2, if_neg c3,
              utf8DecodeFour, if_pos c4, ih]
            simp
            omega

theorem char_toNat_lt (c : Char) : c.toNat < 1114112 := by
  have h := c.valid
  simp only [UInt32.isValidChar, Nat.isValidChar] at h
  show c.val.toNat < 1114112
  rcases h with h | ⟨h1, h2⟩
  · omega
  · omega

theorem char_toNat_inj (a b : Char) (h : a.toNat = b.toNat) : a = b := by
  apply Char.ext
  have hb : a.val.toBitVec.toNat = b.val.toBitVec.toNat := h
  exact UInt32.eq_of_toBitVec_eq (BitVec.eq_of_toNat_eq hb)

theorem utf8EncodeCodepoint_lt (n : Nat) (hn : n < 1114112) :
    ∀ b ∈ utf8EncodeCodepoint n, b < 256 := by
  intro b hb
  simp only [utf8EncodeCodepoint] at hb
  split at hb <;> [skip; split at hb] <;> [skip; skip; split at hb] <;>
    simp at hb <;> omega

theorem strBytes_eq_flatMap (s : String) :
    strBytes s = (s.data.map Char.toNat).flatMap utf8EncodeCodepoint := by
  simp [strBytes, List.flatMap_map, Function.comp]

theorem strBytes_lt (s : String) : ∀ b ∈ strBytes s, b < 256 := by
  intro b hb
  rw [strBytes_eq_flatMap] at hb
  simp only [List.mem_flatMap] at hb
  obtain ⟨n, hn, hbn⟩ := hb
  simp only [List.mem_map] at hn
  obtain ⟨c, _, rfl⟩ := hn
  exact utf8EncodeCodepoint_lt _ (char_toNat_lt c) b hbn

/-! ### Claim theorems -/

/-- C1: for each of the three supported provider tags, `callLLM` returns
exactly the corresponding adapter's output — same requests issued, same
result — so dispatch routes to the matching adapter and no other and
returns that adapter's result unchanged. -/
theorem dispatch_routes_to_matching_adapter (p : LLMParams)
    (net : HttpRequest → HttpResponse) :
    (p.provider = "openai" → callLLM p net = callOpenAI p net) ∧
    (p.provider = "gemini" → callLLM p net = callGemini p net) ∧
    (p.provider = "openrouter" → callLLM p net = callOpenRouter p net) := by
  refine ⟨fun h => ?_, fun h => ?_, fun h => ?_⟩ <;> simp [callLLM, h]

/-- Witness for C1: each supported tag reaches its adapter on a concrete
call. -/
theorem dispatch_routes_to_matching_adapter_witness :
    callLLM (exParams "openai") (exNetOk exBodyParis)
        = callOpenAI (exParams "openai") (exNetOk exBodyParis) ∧
    callLLM (exParams "gemini") (exNetOk exBodyParis)
        = callGemini (exParams "gemini") (exNetOk exBodyParis) ∧
    callLLM (exParams "openrouter") (exNetOk exBodyParis)
        = callOpenRouter (exParams "openrouter") (exNetOk exBodyParis) :=
  ⟨(dispatch_routes_to_matching_adapter _ _).1 rfl,
   (dispatch_routes_to_matching_adapter _ _).2.1 rfl,
   (dispatch_routes_to_matching_adapter _ _).2.2 rfl⟩

/-- C3: an unsupported provider tag makes `callLLM` fail with the
unsupported-provider error whose message names the tag, with no HTTP
request issued (empty request log) and hence no adapter invoked. -/
theorem dispatch_unsupported_provider (p : LLMParams)
    (net : HttpRequest → HttpResponse)
    (h1 : p.provider ≠ "openai") (h2 : p.provider ≠ "gemini")
    (h3 : p.provider ≠ "openrouter") :
    callLLM p net =
      ([], .error (.unsupportedProvider ("Unsupported provider: " ++ p.provider))) := by
  simp [callLLM, h1, h2, h3]

/-- Witness for C3 at the concrete tag "anthropic". -/
theorem dispatch_unsupported_provider_witness :
    callLLM (exParams "anthropic") exNet401 =
      ([], .error (.unsupportedProvider "Unsupported provider: anthropic")) :=
  dispatch_unsupported_provider (exParams "anthropic") exNet401
    (by decide) (by decide) (by decide)

/-- C4: for every variant, a response whose status is not a success
status makes the call fail with an error message embedding the numeric
status and the status text; the body is never inspected (the result is
this error whatever the body holds), exactly one request is issued (no
retry), and when the provider tag selects that variant the same error is
the result of `callLLM`. -/
theorem http_error_propagates (p : LLMParams) (net : HttpRequest → HttpResponse) :
    (respOk (net (openAIRequest p)) = false →
      callOpenAI p net = ([openAIRequest p], .error (.apiError
        ("OpenAI API error: " ++ toString (net (openAIRequest p)).status ++ " "
          ++ (net (openAIRequest p)).statusText))) ∧
      (p.provider = "openai" → callLLM p net = callOpenAI p net)) ∧
    (respOk (net (geminiRequest p)) = false →
      callGemini p net = ([geminiRequest p], .error (.apiError
        ("Gemini API error: " ++ toString (net (geminiRequest p)).status ++ " "
          ++ (net (geminiRequest p)).statusText))) ∧
      (p.provider = "gemini" → callLLM p net = callGemini p net)) ∧
    (respOk (net (openRouterRequest p)) = false →
      callOpenRouter p net = ([openRouterRequest p], .error (.apiError
        ("OpenRouter API error: " ++ toString (net (openRouterRequest p)).status ++ " "
          ++ (net (openRouterRequest p)).statusText))) ∧
      (p.provider = "openrouter" → callLLM p net = callOpenRouter p net)) := by
  refine ⟨fun h => ⟨?_, fun ht => ?_⟩, fun h => ⟨?_, fun ht => ?_⟩,
    fun h => ⟨?_, fun ht => ?_⟩⟩
  · simp [callOpenAI, h]
  · simp [callLLM, ht]
  · simp [callGemini, h]
  · simp [callLLM, ht]
  · simp [callOpenRouter, h]
  · simp [callLLM, ht]

/-- Witness for C4: a concrete 401 response propagates through `callLLM`
as an error embedding `401`, for each variant. -/
theorem http_error_propagates_witness :
    callOpenAI (exParams "openai") exNet401
      = ([openAIRequest (exParams "openai")],
         .error (.apiError "OpenAI API error: 401 Unauthorized")) ∧
    callGemini (exParams "gemini") exNet401
      = ([geminiRequest (exParams "gemini")],
         .error (.apiError "Gemini API error: 401 Unauthorized")) ∧
    callOpenRouter (exParams "openrouter") exNet401
      = ([openRouterRequest (exParams "openrouter")],
         .error (.apiError "OpenRouter API error: 401 Unauthorized")) :=
  ⟨((http_error_propagates (exParams "openai") exNet401).1 rfl).1,
   ((http_error_propagates (exParams "gemini") exNet401).2.1 rfl).1,
   ((http_error_propagates (exParams "openrouter") exNet401).2.2 rfl).1⟩

/-- C5: variant B's request body nests, at `contents[0].parts[0].text`,
exactly the transcript rendered one line per message as `[role] content`
joined by newlines; in particular the single user message about the
capital of France flattens to `"[user] What is the capital of France?"`. -/
theorem gemini_body_flattened_text (p : LLMParams) :
    ((jsGet (some (geminiBody p)) "contents").bind fun contents =>
     (jsIndex contents 0).bind fun c0 =>
     (jsGet c0 "parts").bind fun parts =>
     (jsIndex parts 0).bind fun p0 =>
     jsGet p0 "text")
      = .ok (some (Json.str (String.intercalate "\n"
          (p.messages.map fun m => "[" ++ m.role ++ "] " ++ m.content)))) ∧
    geminiFlattenText [⟨"user", "What is the capital of France?"⟩]
      = "[user] What is the capital of France?" := by
  constructor
  · rfl
  · rfl

/-- C6: variant B's built request carries only the `contents` field in
its body, and changing `temperature`, `tools`, `response_format` or
`user` changes nothing about the built request (URL, headers, body). -/
theorem gemini_drops_optional_fields (p : LLMParams) (t : Option Int)
    (u : Option String) (tl rf : Option Json) :
    geminiRequest { p with temperature := t, user := u, tools := tl,
                           response_format := rf }
      = geminiRequest p ∧
    ∃ v, geminiBody p = Json.obj [("contents", v)] := by
  exact ⟨rfl, ⟨_, rfl⟩⟩

/-- C7 counterexample: at a concrete request the two built requests have
identical bodies yet different URLs, so they do not differ only in the
authorization header. -/
theorem variantC_url_differs_counterexample :
    (openAIRequest (exParams "openai")).body
        = (openRouterRequest (exParams "openai")).body ∧
    (openAIRequest (exParams "openai")).url
        ≠ (openRouterRequest (exParams "openai")).url := by
  exact ⟨rfl, by decide⟩

/-- C7 (amended): for every request, variant C's built body is identical
to variant A's, the methods agree, and the header lists agree except for
the authorization entry — variant C sends `Bearer <credential>` where
variant A sends the raw credential; the URLs are the two providers'
distinct fixed endpoints. -/
theorem variantC_matches_variantA_except_auth_and_url (p : LLMParams) :
    (openRouterRequest p).body = (openAIRequest p).body ∧
    (openRouterRequest p).method = (openAIRequest p).method ∧
    (openAIRequest p).headers
      = [("Content-Type", "application/json"), ("Authorization", p.apiKey)] ∧
    (openRouterRequest p).headers
      = [("Content-Type", "application/json"),
         ("Authorization", "Bearer " ++ p.apiKey)] ∧
    (openAIRequest p).url = "https://api.openai.com/v1/chat/completions" ∧
    (openRouterRequest p).url = "https://openrouter.ai/api/v1/chat/completions" :=
  ⟨rfl, rfl, rfl, rfl, rfl, rfl⟩

/-- C8: the `user` value transmitted by variants A and C is the base64 of
the tag's UTF-8 bytes, and it round-trips losslessly: base64-decoding the
transmitted string recovers the bytes, UTF-8-decoding the bytes recovers
the tag's code points, and the code points determine the tag uniquely. -/
theorem user_tag_roundtrip (s : String) :
    b64Decode (b64EncodeString s).data = some (strBytes s) ∧
    utf8DecodeBytes (strBytes s) = some (s.data.map Char.toNat) ∧
    (∀ t : String, t.data.map Char.toNat = s.data.map Char.toNat → t = s) := by
  refine ⟨b64Decode_encode _ (strBytes_lt s), ?_, ?_⟩
  · rw [strBytes_eq_flatMap]
    apply utf8Decode_encode
    intro n hn
    simp only [List.mem_map] at hn
    obtain ⟨c, _, rfl⟩ := hn
    exact char_toNat_lt c
  · intro t ht
    apply String.ext
    have : ∀ (l1 l2 : List Char), l1.map Char.toNat = l2.map Char.toNat → l1 = l2 := by
      intro l1
      induction l1 with
      | nil => intro l2 h2; cases l2 <;> simp_all
      | cons c cs ihl =>
        intro l2 h2
        cases l2 with
        | nil => simp_all
        | cons d ds =>
          simp only [List.map_cons, List.cons.injEq] at h2
          exact congrArg₂ List.cons (char_toNat_inj _ _ h2.1) (ihl ds h2.2)
    exact this t.data s.data ht

/-- Witness for C8 at the concrete tag "user-123". -/
theorem user_tag_roundtrip_witness :
    b64Decode (b64EncodeString "user-123").data = some (strBytes "user-123") ∧
    utf8DecodeBytes (strBytes "user-123") = some ("user-123".data.map Char.toNat) :=
  ⟨(user_tag_roundtrip "user-123").1, (user_tag_roundtrip "user-123").2.1⟩

/-- C10: variants A and C always place a `user` field last in the body,
holding the base64 of the tag (defaulted to the empty string), so an
absent tag and an empty tag yield identical bodies; the empty tag
encodes to the empty string. -/
theorem user_field_always_present (p : LLMParams) :
    (∃ pre, openAIBody p
      = Json.obj (pre ++ [("user", Json.str (b64EncodeString (p.user.getD "")))])) ∧
    (∃ pre, openRouterBody p
      = Json.obj (pre ++ [("user", Json.str (b64EncodeString (p.user.getD "")))])) ∧
    openAIBody { p with user := none } = openAIBody { p with user := some "" } ∧
    openRouterBody { p with user := none }
      = openRouterBody { p with user := some "" } ∧
    b64EncodeString "" = "" :=
  ⟨⟨_, rfl⟩, ⟨_, rfl⟩, rfl, rfl, rfl⟩

/-- C2: variant A extraction is three-way over the first choice's
message: a non-null content value is returned as-is; with null content, a
non-null tool-call argument string is parsed as JSON and the `response`
field of the parse is the result; with null content and null arguments,
`null` (the empty result) is returned. -/
theorem extract_variantA_threeway (data : Json) (chv c0v msgv : Option Json)
    (hch : jsGet (some data) "choices" = .ok chv)
    (h0 : jsIndex chv 0 = .ok c0v)
    (hmsg : jsGet c0v "message" = .ok msgv) :
    (∀ c : Json, jsGet msgv "content" = .ok (some c) → c ≠ Json.null →
        extractOpenAI data = .ok (some c)) ∧
    (∀ (tcs tc0 fnv : Option Json) (s : String) (j : Json),
        jsGet msgv "content" = .ok (some Json.null) →
        jsGet msgv "tool_calls" = .ok tcs →
        jsIndex tcs 0 = .ok tc0 →
        jsGet tc0 "function" = .ok fnv →
        jsGet fnv "arguments" = .ok (some (Json.str s)) →
        jsonParse s = some j →
        extractOpenAI data = jsGet (some j) "response") ∧
    (∀ (tcs tc0 fnv : Option Json),
        jsGet msgv "content" = .ok (some Json.null) →
        jsGet msgv "tool_calls" = .ok tcs →
        jsIndex tcs 0 = .ok tc0 →
        jsGet tc0 "function" = .ok fnv →
        jsGet fnv "arguments" = .ok (some Json.null) →
        extractOpenAI data = .ok (some Json.null)) := by
  refine ⟨?_, ?_, ?_⟩
  · intro c hc hcne
    cases c
    · exact absurd rfl hcne
    all_goals simp [extractOpenAI, Bind.bind, Except.bind, pure, Except.pure,
      hch, h0, hmsg, hc]
  · intro tcs tc0 fnv s j hc htc h0t hfn ha hp
    simp [extractOpenAI, Bind.bind, Except.bind, pure, Except.pure,
      hch, h0, hmsg, hc, htc, h0t, hfn, ha, hp]
  · intro tcs tc0 fnv hc htc h0t hfn ha
    simp [extractOpenAI, Bind.bind, Except.bind, pure, Except.pure,
      hch, h0, hmsg, hc, htc, h0t, hfn, ha]

/-- Witness for C2: the "Paris" content example and the
`{"response": true}` tool-call example. -/
theorem extract_variantA_threeway_witness :
    extractOpenAI exBodyParis = .ok (some (Json.str "Paris")) ∧
    extractOpenAI exBodyTool = .ok (some (Json.bool true)) :=
  ⟨(extract_variantA_threeway exBodyParis _ _ _ rfl rfl rfl).1
      (Json.str "Paris") rfl (fun h => nomatch h),
   (extract_variantA_threeway exBodyTool _ _ _ rfl rfl rfl).2.1
      _ _ _ "\x7b\"response\": true\x7d" (Json.obj [("response", Json.bool true)])
      rfl rfl rfl rfl rfl rfl⟩

/-- C9: with null content and a `tool_calls` list that is absent
(`undefined`) or empty, variant A extraction hits the unconditional
`tool_calls[0]` access and fails with a runtime error instead of
returning an empty result. -/
theorem extract_variantA_missing_toolcalls (data : Json) (chv c0v msgv : Option Json)
    (hch : jsGet (some data) "choices" = .ok chv)
    (h0 : jsIndex chv 0 = .ok c0v)
    (hmsg : jsGet c0v "message" = .ok msgv)
    (hc : jsGet msgv "content" = .ok (some Json.null))
    (htc : jsGet msgv "tool_calls" = .ok none ∨
           jsGet msgv "tool_calls" = .ok (some (Json.arr []))) :
    extractOpenAI data = .error .runtimeError := by
  rcases htc with htc | htc
  · have hn : jsIndex none 0 = Except.error LLMError.runtimeError := rfl
    simp [extractOpenAI, Bind.bind, Except.bind, pure, Except.pure,
      hch, h0, hmsg, hc, htc, hn]
  · have he : jsIndex (some (Json.arr [])) 0 = Except.ok none := rfl
    have hf : jsGet none "function" = Except.error LLMError.runtimeError := rfl
    simp [extractOpenAI, Bind.bind, Except.bind, pure, Except.pure,
      hch, h0, hmsg, hc, htc, he, hf]

/-- Witness for C9: a concrete body with null content and no
`tool_calls` key crashes the extraction. -/
theorem extract_variantA_missing_toolcalls_witness :
    extractOpenAI exBodyNoTools = .error .runtimeError :=
  extract_variantA_missing_toolcalls exBodyNoTools _ _ _ rfl rfl rfl rfl (Or.inl rfl)

end LLMRouter
